import Mathlib

/-!
Verification of the Q15 fixed-point AXPY kernel and its benchmark harness
(src/q15_axpy_challenge.c) against its natural-language specification.

The kernel computes y[i] = sat_q15(a[i] + (alpha * b[i]) >> 15) over 16-bit
signed fixed-point values.  All C integer types are embedded as Lean `Int`
with explicit wrapping where the C code narrows; the 16x16-bit product and
the subsequent sum fit in an int32 without overflow, so plain `Int`
arithmetic is exact there.  The `>> 15` on a (possibly negative) int32 is
GCC's arithmetic shift, i.e. floor division by 2^15, embedded as `Int.fdiv`.
-/

namespace Q15Axpy

/-- Q15_MIN (src line 12). -/
def Q15_MIN : Int := -32768

/-- Q15_MAX (src line 13). -/
def Q15_MAX : Int := 32767

/-- The range of values representable in an int16_t / Q15 slot. -/
def isQ15 (x : Int) : Prop := Q15_MIN ≤ x ∧ x ≤ Q15_MAX

instance (x : Int) : Decidable (isQ15 x) :=
  inferInstanceAs (Decidable (_ ∧ _))

/-- Two's-complement narrowing conversion to int16_t, modelling the cast at
src line 20 (for the values reaching that cast it is the identity). -/
def toInt16 (v : Int) : Int := (v + 32768) % 65536 - 32768

/-- saturate_q15 (src lines 16-21): clamp an int32 value into the Q15 range. -/
def saturate_q15 (value : Int) : Int :=
  if value > Q15_MAX then Q15_MAX
  else if value < Q15_MIN then Q15_MIN
  else toInt16 value

/-- Arithmetic right shift of an int32 by 15 bits (src line 28): on GCC this
sign-extends, i.e. it is floor division by 2^15. -/
def asr15 (x : Int) : Int := Int.fdiv x 32768

/-- The loop body of q15_axpy_baseline (src lines 27-30): full-precision
product, arithmetic shift by 15, add a[i], saturate. -/
def axpy_elem (alpha a b : Int) : Int :=
  saturate_q15 (a + asr15 (alpha * b))

/-- q15_axpy_baseline (src lines 23-32): the element-wise loop over the two
input arrays, as a zipWith over lists. -/
def q15_axpy_baseline (a b : List Int) (alpha : Int) : List Int :=
  List.zipWith (fun x y => axpy_elem alpha x y) a b

/-- q15_axpy_vector (src lines 35-38): delegates to q15_axpy_baseline; the
speedup is expected from compiler auto-vectorization of the same code. -/
def q15_axpy_vector (a b : List Int) (alpha : Int) : List Int :=
  q15_axpy_baseline a b alpha

/-- The scan loop of verify_identical (src lines 43-50), carrying the current
index: returns the first mismatch as (index, ref value, test value), or none
when the scan reaches the end without a mismatch. -/
def verify_scan : List Int → List Int → Nat → Option (Nat × Int × Int)
  | r :: rs, t :: ts, i =>
      if r ≠ t then some (i, r, t) else verify_scan rs ts (i + 1)
  | _, _, _ => none

/-- verify_identical (src lines 41-52): true iff the scan found no mismatch
(the C function returns 0 at the first mismatch, 1 after a full scan). -/
def verify_identical (ref test : List Int) : Bool :=
  (verify_scan ref test 0).isNone

/-- rdcycle64 on a platform without the RISC-V cycle CSR (src lines 61-63):
the function degrades to the constant sentinel 0. -/
def rdcycle64_unavailable : Nat := 0

/-- baseline_cycles as measured in main (src lines 98-100) when the cycle
counter is unavailable: the difference of two sentinel reads. -/
def baseline_cycles_unavailable : Nat :=
  rdcycle64_unavailable - rdcycle64_unavailable

/-- vector_cycles as measured in main (src lines 103-105) when the cycle
counter is unavailable: the difference of two sentinel reads. -/
def vector_cycles_unavailable : Nat :=
  rdcycle64_unavailable - rdcycle64_unavailable

/-- The speedup-ratio division at src lines 116-118, with division by zero
made observable: the result is none exactly when the division is reached
with divisor 0, and the exact rational ratio otherwise.  The source performs
the division unconditionally, so a zero divisor reaches the division. -/
def speedup_checked (baseline_cycles vector_cycles : Nat) : Option ℚ :=
  if vector_cycles = 0 then none
  else some ((baseline_cycles : ℚ) / (vector_cycles : ℚ))

/-- Observable events of one run of main (src lines 67-123), in program
order: the allocation-failure report, the two kernel invocations, the
verification outcome, and the process exit code. -/
inductive MainEvent
  | allocFailure
  | runBaseline
  | runVector
  | verifyResult (ok : Bool)
  | exitCode (code : Nat)
  deriving DecidableEq

/-- Control flow of main (src lines 67-123) as a function of the allocation
outcome and the generated inputs, recorded as the ordered list of observable
events: on allocation failure main reports and returns 1 before any kernel
call (src lines 78-82); otherwise it runs both kernels, verifies, and
returns 0 on success and 1 on mismatch (src lines 98-122). -/
def main_run (allocOk : Bool) (a b : List Int) (alpha : Int) : List MainEvent :=
  if allocOk then
    let baseline_out := q15_axpy_baseline a b alpha
    let vector_out := q15_axpy_vector a b alpha
    let verified := verify_identical baseline_out vector_out
    [MainEvent.runBaseline, MainEvent.runVector, MainEvent.verifyResult verified,
      MainEvent.exitCode (if verified then 0 else 1)]
  else
    [MainEvent.allocFailure, MainEvent.exitCode 1]

/-- saturate_q15 is the identity on values already in the Q15 range. -/
theorem saturate_q15_of_isQ15 (x : Int) (hx : isQ15 x) : saturate_q15 x = x := by
  obtain ⟨h1, h2⟩ := hx
  rw [Q15_MIN] at h1
  rw [Q15_MAX] at h2
  rw [saturate_q15, Q15_MIN, Q15_MAX, if_neg (by omega), if_neg (by omega), toInt16]
  omega

/-- C2: saturate_q15 clamps every 32-bit signed value: above 32767 it yields
32767, below -32768 it yields -32768, and on [-32768, 32767] it is the
identity; it is total on that domain. -/
theorem saturate_q15_spec (v : Int) (hlo : -(2 ^ 31) ≤ v) (hhi : v < 2 ^ 31) :
    (v > 32767 → saturate_q15 v = 32767) ∧
    (v < -32768 → saturate_q15 v = -32768) ∧
    (-32768 ≤ v → v ≤ 32767 → saturate_q15 v = v) := by
  refine ⟨fun h => ?_, fun h => ?_, fun h1 h2 => ?_⟩
  · rw [saturate_q15, Q15_MAX, if_pos h]
  · rw [saturate_q15, Q15_MAX, Q15_MIN, if_neg (by omega), if_pos h]
  · exact saturate_q15_of_isQ15 v ⟨by rw [Q15_MIN]; omega, by rw [Q15_MAX]; omega⟩

/-- Witness for C2: the three branches of saturate_q15_spec evaluated at the
concrete inputs 40000, -40000 and 5. -/
theorem saturate_q15_spec_witness :
    saturate_q15 40000 = 32767 ∧
    saturate_q15 (-40000) = -32768 ∧
    saturate_q15 5 = 5 :=
  ⟨(saturate_q15_spec 40000 (by decide) (by decide)).1 (by decide),
   (saturate_q15_spec (-40000) (by decide) (by decide)).2.1 (by decide),
   (saturate_q15_spec 5 (by decide) (by decide)).2.2 (by decide) (by decide)⟩

/-- C3: with a[i] = 0, alpha = -32768, b[i] = 1 the product is -32768, the
arithmetic shift by 15 floors it to -1, the sum is -1, saturate(-1) = -1,
and the kernel produces y[i] = -1. -/
theorem shift_sign_correctness :
    ((-32768 : Int) * 1 = -32768) ∧
    asr15 ((-32768 : Int) * 1) = -1 ∧
    ((0 : Int) + asr15 ((-32768 : Int) * 1) = -1) ∧
    saturate_q15 (-1) = -1 ∧
    q15_axpy_baseline [0] [1] (-32768) = [-1] := by
  refine ⟨rfl, by decide, by decide, by decide, by decide⟩

/-- C6: with alpha = 16384, a[i] = 0, b[i] = 32767 the kernel result equals
the exact product arithmetically shifted right by 15, i.e.
floor(16384 * 32767 / 32768) = 16383. -/
theorem half_scale :
    axpy_elem 16384 0 32767 = Int.fdiv (16384 * 32767) 32768 ∧
    axpy_elem 16384 0 32767 = 16383 := by
  refine ⟨by decide, by decide⟩

/-- C7: with a[i] = 32767, alpha = 32767, b[i] = 32767 the shifted product
added to a[i] exceeds 32767 and the kernel saturates to exactly 32767. -/
theorem full_range_saturation :
    (32767 : Int) + asr15 ((32767 : Int) * 32767) > 32767 ∧
    axpy_elem 32767 32767 32767 = 32767 := by
  refine ⟨by decide, by decide⟩

/-- C1: for every input (any arrays a and b and any alpha), q15_axpy_vector
produces exactly the output of q15_axpy_baseline, element-wise bit-identical
at every index. -/
theorem vector_matches_baseline (a b : List Int) (alpha : Int) (i : Nat) :
    q15_axpy_vector a b alpha = q15_axpy_baseline a b alpha ∧
    (q15_axpy_vector a b alpha)[i]? = (q15_axpy_baseline a b alpha)[i]? :=
  ⟨rfl, rfl⟩

/-- C8: with alpha = 0 the kernel is the identity on a: for equal-length
Q15-valued arrays, q15_axpy_baseline a b 0 = a. -/
theorem identity_scaling (a b : List Int) (hlen : a.length = b.length)
    (ha : ∀ x ∈ a, isQ15 x) :
    q15_axpy_baseline a b 0 = a := by
  induction a generalizing b with
  | nil => simp [q15_axpy_baseline]
  | cons x xs ih =>
    cases b with
    | nil => simp at hlen
    | cons y ys =>
      have hx : axpy_elem 0 x y = x := by
        rw [axpy_elem, zero_mul]
        have h0 : asr15 0 = 0 := rfl
        rw [h0, add_zero]
        exact saturate_q15_of_isQ15 x (ha x (List.mem_cons_self x xs))
      have hxs : q15_axpy_baseline xs ys 0 = xs :=
        ih ys (by simpa using hlen) (fun z hz => ha z (List.mem_cons_of_mem x hz))
      show axpy_elem 0 x y :: q15_axpy_baseline xs ys 0 = x :: xs
      rw [hx, hxs]

/-- Witness for C8: identity_scaling at a = [5, -3], b = [7, 9]. -/
theorem identity_scaling_witness :
    q15_axpy_baseline [5, -3] [7, 9] 0 = [5, -3] :=
  identity_scaling [5, -3] [7, 9] (by decide) (by decide)

/-- C9: per-element independence: the output at index i depends only on
(a[i], b[i], alpha) — two runs whose inputs agree at index i and on alpha
agree at index i, whatever the other elements are. -/
theorem per_element_independence (alpha : Int) (a b a2 b2 : List Int) (i : Nat)
    (ha : a[i]? = a2[i]?) (hb : b[i]? = b2[i]?) :
    (q15_axpy_baseline a b alpha)[i]? = (q15_axpy_baseline a2 b2 alpha)[i]? := by
  rw [q15_axpy_baseline, q15_axpy_baseline, List.getElem?_zipWith',
    List.getElem?_zipWith', ha, hb]

/-- Witness for C9: per_element_independence at index 1 of two runs that
agree there but differ elsewhere. -/
theorem per_element_independence_witness :
    (q15_axpy_baseline [1, 5] [2, 6] 3)[1]? =
      (q15_axpy_baseline [9, 5, 4] [8, 6, 7] 3)[1]? :=
  per_element_independence 3 [1, 5] [2, 6] [9, 5, 4] [8, 6, 7] 1 rfl rfl

/-- The scan of verify_identical reports no mismatch exactly when the two
equal-length lists are equal, whatever the running start index. -/
theorem verify_scan_eq_none_iff (ref test : List Int) (k : Nat)
    (hlen : ref.length = test.length) :
    verify_scan ref test k = none ↔ ref = test := by
  induction ref generalizing test k with
  | nil =>
    cases test with
    | nil => simp [verify_scan]
    | cons y ys => simp at hlen
  | cons x xs ih =>
    cases test with
    | nil => simp at hlen
    | cons y ys =>
      rw [verify_scan]
      by_cases hxy : x = y
      · rw [if_neg (by simp [hxy])]
        rw [ih ys (k + 1) (by simpa using hlen)]
        simp [hxy]
      · rw [if_pos hxy]
        simp [hxy]

/-- When the scan of verify_identical reports a mismatch, it is the first
one: the reported values are the list entries at the reported index, they
differ, and every entry scanned before that index matched. -/
theorem verify_scan_eq_some_spec (ref test : List Int) (k i : Nat) (r t : Int)
    (h : verify_scan ref test k = some (i, r, t)) :
    k ≤ i ∧ ref[i - k]? = some r ∧ test[i - k]? = some t ∧ r ≠ t ∧
      ∀ j, j < i - k → ref[j]? = test[j]? := by
  induction ref generalizing test k with
  | nil => simp [verify_scan] at h
  | cons x xs ih =>
    cases test with
    | nil => simp [verify_scan] at h
    | cons y ys =>
      rw [verify_scan] at h
      by_cases hxy : x = y
      · rw [if_neg (by simp [hxy])] at h
        obtain ⟨hk, hr, ht, hrt, hpre⟩ := ih ys (k + 1) h
        have hik : i - k = (i - (k + 1)) + 1 := by omega
        refine ⟨by omega, ?_, ?_, hrt, ?_⟩
        · rw [hik, List.getElem?_cons_succ]; exact hr
        · rw [hik, List.getElem?_cons_succ]; exact ht
        · intro j hj
          cases j with
          | zero => simp [hxy]
          | succ j2 =>
            rw [List.getElem?_cons_succ, List.getElem?_cons_succ]
            exact hpre j2 (by omega)
      · rw [if_pos hxy] at h
        obtain ⟨hi, hr, ht⟩ : k = i ∧ x = r ∧ y = t := by
          simpa using h
        subst hi hr ht
        refine ⟨le_refl k, by simp, by simp, hxy, ?_⟩
        intro j hj
        omega

/-- C10: on equal-length arrays verify_identical returns true exactly when
all elements match; and when its scan stops, it stops at the first mismatch,
reporting that index together with both values there (everything before the
reported index matched, so nothing was silently skipped). -/
theorem verify_identical_spec (ref test : List Int)
    (hlen : ref.length = test.length) :
    (verify_identical ref test = true ↔ ref = test) ∧
    (∀ i r t, verify_scan ref test 0 = some (i, r, t) →
      ref[i]? = some r ∧ test[i]? = some t ∧ r ≠ t ∧
        ∀ j, j < i → ref[j]? = test[j]?) := by
  constructor
  · rw [verify_identical, Option.isNone_iff_eq_none]
    exact verify_scan_eq_none_iff ref test 0 hlen
  · intro i r t h
    have hs := verify_scan_eq_some_spec ref test 0 i r t h
    simpa using hs.2

/-- Witness for C10: the matching pair [1, 2], [1, 2] verifies true, and on
the pair [1, 2], [1, 9] the scan reports the first mismatch at index 1 with
both values. -/
theorem verify_identical_spec_witness :
    verify_identical [1, 2] [1, 2] = true ∧
    (([1, 2] : List Int)[1]? = some 2 ∧ ([1, 9] : List Int)[1]? = some 9 ∧
      (2 : Int) ≠ 9 ∧ ∀ j, j < 1 → ([1, 2] : List Int)[j]? = ([1, 9] : List Int)[j]?) :=
  ⟨(verify_identical_spec [1, 2] [1, 2] rfl).1.mpr rfl,
   (verify_identical_spec [1, 2] [1, 9] rfl).2 1 2 9 rfl⟩

/-- C5: main exits 0 exactly when allocation succeeded and the outputs
verified bit-exact; it exits 1 when allocation failed or verification
failed; and on allocation failure the run is only the failure report and
the exit, with neither kernel invoked. -/
theorem main_exit_code_spec (allocOk : Bool) (a b : List Int) (alpha : Int) :
    (MainEvent.exitCode 0 ∈ main_run allocOk a b alpha ↔
      allocOk = true ∧
        verify_identical (q15_axpy_baseline a b alpha) (q15_axpy_vector a b alpha) = true) ∧
    (MainEvent.exitCode 1 ∈ main_run allocOk a b alpha ↔
      allocOk = false ∨
        verify_identical (q15_axpy_baseline a b alpha) (q15_axpy_vector a b alpha) = false) ∧
    (allocOk = false →
      main_run allocOk a b alpha = [MainEvent.allocFailure, MainEvent.exitCode 1] ∧
      MainEvent.runBaseline ∉ main_run allocOk a b alpha ∧
      MainEvent.runVector ∉ main_run allocOk a b alpha) := by
  cases allocOk with
  | false => simp [main_run]
  | true =>
    cases hv : verify_identical (q15_axpy_baseline a b alpha) (q15_axpy_vector a b alpha) with
    | false => simp [main_run, hv]
    | true => simp [main_run, hv]

/-- Witness for C5: on allocation failure with empty inputs, main reports
the failure and exits 1 without running a kernel. -/
theorem main_exit_code_spec_witness :
    main_run false [] [] 0 = [MainEvent.allocFailure, MainEvent.exitCode 1] :=
  ((main_exit_code_spec false [] [] 0).2.2 rfl).1

/-- C4 counterexample: when the cycle counter is unavailable both measured
cycle counts are the sentinel 0, and the speedup computation reaches its
division with divisor 0 — there is no guard, contrary to the claim. -/
theorem speedup_guard_counterexample :
    baseline_cycles_unavailable = 0 ∧ vector_cycles_unavailable = 0 ∧
    speedup_checked baseline_cycles_unavailable vector_cycles_unavailable = none :=
  ⟨rfl, rfl, rfl⟩

/-- C4 (amended): the harness divides baseline_cycles by vector_cycles
unconditionally; when the cycle counter is unavailable the divisor is the
sentinel 0 and the division is performed with a zero divisor, while for any
nonzero divisor it produces the exact ratio. -/
theorem speedup_unguarded :
    speedup_checked baseline_cycles_unavailable vector_cycles_unavailable = none ∧
    ∀ bc vc : Nat, vc ≠ 0 →
      speedup_checked bc vc = some ((bc : ℚ) / (vc : ℚ)) := by
  refine ⟨rfl, fun bc vc h => ?_⟩
  rw [speedup_checked, if_neg h]

/-- Witness for C4 (amended): the ratio at 6 cycles over 2 cycles. -/
theorem speedup_unguarded_witness :
    speedup_checked 6 2 = some ((6 : ℚ) / (2 : ℚ)) :=
  speedup_unguarded.2 6 2 (by decide)

end Q15Axpy
